import Mathlib

/-!
Shallow embedding of `src/main.rs` of the `fly_distributed` node.

The Rust program is a single node of a gossip-broadcast cluster: a foreground
dispatcher (`EchoNode::step`) handles one decoded inbound envelope at a time,
and a background thread periodically emits `GossipBroadcast` envelopes to the
neighbors found in the topology store (`main`, lines 214-255).

Modelling decisions, each tied to the source:
* `HashSet<usize>` (the value set, `Gossiped`) becomes `Finset Nat`; only its
  set content is observable, iteration order is unspecified in Rust, so the
  `ReadOk` payload carries the snapshot as a `Finset`.
* `HashMap<String, Vec<String>>` (the topology store) becomes an association
  list with HashMap insert semantics (`insertKV`): replace the value when the
  key is present, otherwise add the entry.  `HashMap::extend` folds `insertKV`
  over the supplied entries.
* `Ulid::new().to_string()` is an external source of fresh strings; the
  dispatcher receives the generated string as the extra argument `uid`.
* Writing to stdout becomes returning the list of emitted envelopes; each
  dispatcher call emits zero or one, a gossip round emits one per neighbor.
* An execution is an arbitrary interleaving of dispatcher steps and gossip
  rounds (`runEvents`), matching the two concurrent loops; every shared-state
  access in the source is under a lock, so event granularity is faithful for
  the stated properties.
* `main`'s foreground loop aborts on a line that fails to decode
  (`input.context(..)?`); `runMain` models this with a `Line.bad` input that
  stops the loop with an abnormal-termination flag.  An unknown `"type"` tag
  is such a line: `Payload` is a closed `#[serde(tag = "type")]` enum, so an
  unknown tag is a deserialization error.
-/

/-- The tagged payload enum of `main.rs` (lines 27-66). `GenerateOk.unq_id` is
the field serialized as `id`; `ReadOk.messages` and `GossipBroadcast.message`
carry the set snapshot (`HashSet<usize>` in the source). -/
inductive Payload where
  | Init (node_id : String) (node_ids : List String)
  | InitOk
  | Error (code : Nat) (text : String)
  | Echo (echo : String)
  | EchoOk (echo : String)
  | Generate
  | GenerateOk (unq_id : String)
  | Broadcast (message : Nat)
  | BroadcastOk
  | Read
  | ReadOk (messages : Finset Nat)
  | Topology (topology : List (String × List String))
  | TopologyOk
  | GossipBroadcast (message : Finset Nat)
  deriving DecidableEq

/-- `MessageBody` (lines 19-25): optional `msg_id`, optional `in_reply_to`,
flattened payload. -/
structure MessageBody where
  msg_id : Option Nat
  in_reply_to : Option Nat
  payload : Payload
  deriving DecidableEq

/-- `Message` (lines 12-17): the `{src, dest, body}` envelope. -/
structure Message where
  src : String
  dest : String
  body : MessageBody
  deriving DecidableEq

/-- `EchoNode` (lines 69-71): the dispatcher's msg-id counter. -/
structure EchoNode where
  id : Nat
  deriving DecidableEq

/-- `BroadcastStore` (lines 73-78): value set, own address, topology store.
The `Arc<Mutex<..>>` wrappers serialize individual accesses; the state they
guard is the plain data. -/
structure BroadcastStore where
  messages : Finset Nat
  whoami : String
  topology : List (String × List String)
  deriving DecidableEq

/-- Lookup in the association-list model of `HashMap<String, Vec<String>>`. -/
def lookupKey : List (String × List String) → String → Option (List String)
  | [], _ => none
  | (k', v) :: rest, k => if k' = k then some v else lookupKey rest k

/-- `HashMap::insert` semantics on the association-list model: replace the
value when the key is present, otherwise add the entry. -/
def insertKV : List (String × List String) → String → List String →
    List (String × List String)
  | [], k, v => [(k, v)]
  | (k', v') :: rest, k, v =>
      if k' = k then (k, v) :: rest else (k', v') :: insertKV rest k v

/-- `HashMap::extend` (used at line 175, `neighbors.extend(topology)`): insert
every supplied entry, overwriting same-key entries. -/
def extendMap (m new : List (String × List String)) :
    List (String × List String) :=
  new.foldl (fun acc kv => insertKV acc kv.1 kv.2) m

/-- `EchoNode::step` (lines 80-203).  Arguments mirror the Rust signature:
the node (`&mut self`), the shared store (`&mut BroadcastStore`), the decoded
input, plus `uid`, the string `Ulid::new().to_string()` would produce for this
call.  Returns the updated node, the updated store, and the envelopes written
to the locked stdout (zero or one). -/
def step (node : EchoNode) (store : BroadcastStore) (input : Message)
    (uid : String) : EchoNode × BroadcastStore × List Message :=
  match input.body.payload with
  | Payload.Init _ _ =>
      let reply : Message :=
        { src := input.dest, dest := input.src,
          body := { msg_id := some node.id, in_reply_to := input.body.msg_id,
                    payload := Payload.InitOk } }
      ({ id := node.id + 1 },
       { store with whoami := store.whoami ++ input.dest }, [reply])
  | Payload.Echo echo =>
      let reply : Message :=
        { src := input.dest, dest := input.src,
          body := { msg_id := some node.id, in_reply_to := input.body.msg_id,
                    payload := Payload.EchoOk echo } }
      ({ id := node.id + 1 }, store, [reply])
  | Payload.Generate =>
      let reply : Message :=
        { src := input.dest, dest := input.src,
          body := { msg_id := some node.id, in_reply_to := input.body.msg_id,
                    payload := Payload.GenerateOk uid } }
      ({ id := node.id + 1 }, store, [reply])
  | Payload.Broadcast message =>
      let reply : Message :=
        { src := input.dest, dest := input.src,
          body := { msg_id := some node.id, in_reply_to := input.body.msg_id,
                    payload := Payload.BroadcastOk } }
      ({ id := node.id + 1 },
       { store with messages := insert message store.messages }, [reply])
  | Payload.Read =>
      let reply : Message :=
        { src := input.dest, dest := input.src,
          body := { msg_id := some node.id, in_reply_to := input.body.msg_id,
                    payload := Payload.ReadOk store.messages } }
      ({ id := node.id + 1 }, store, [reply])
  | Payload.Topology topology =>
      let reply : Message :=
        { src := input.dest, dest := input.src,
          body := { msg_id := some node.id, in_reply_to := input.body.msg_id,
                    payload := Payload.TopologyOk } }
      ({ id := node.id + 1 },
       { store with topology := extendMap store.topology topology }, [reply])
  | Payload.GossipBroadcast message =>
      (node, { store with messages := store.messages ∪ message }, [])
  | Payload.InitOk => (node, store, [])
  | Payload.EchoOk _ => (node, store, [])
  | Payload.GenerateOk _ => (node, store, [])
  | Payload.BroadcastOk => (node, store, [])
  | Payload.ReadOk _ => (node, store, [])
  | Payload.TopologyOk => (node, store, [])
  | Payload.Error _ _ => (node, store, [])

/-- Lexicographic order on character lists, by codepoint.  Rust's `String`
order is byte-wise lexicographic on the UTF-8 encoding, which coincides with
codepoint-lexicographic order. -/
def lexLe : List Char → List Char → Bool
  | [], _ => true
  | _ :: _, [] => false
  | a :: as, b :: bs =>
      if a < b then true else if b < a then false else lexLe as bs

/-- The order `Vec::<String>::sort` sorts by. -/
def strLe (a b : String) : Bool := lexLe a.data b.data

/-- Insert into a sorted list, keeping it sorted. -/
def insertSorted (a : String) : List String → List String
  | [] => [a]
  | b :: rest => if strLe a b then a :: b :: rest else b :: insertSorted a rest

/-- `Vec::sort` (line 229) as a stable insertion sort: same result as Rust's
stable sort under the total order `strLe`. -/
def sortList : List String → List String
  | [] => []
  | a :: rest => insertSorted a (sortList rest)

/-- `Vec::dedup` (line 230): remove consecutive duplicates. -/
def dedupConsecutive : List String → List String
  | [] => []
  | [a] => [a]
  | a :: b :: rest =>
      if a = b then dedupConsecutive (b :: rest)
      else a :: dedupConsecutive (b :: rest)

/-- Lines 228-231 of the gossip thread: flatten all adjacency lists of the
topology store (`neighbors.values().flatten()`), sort, dedup, and drop this
node's own address (`retain(|n| n != &src)`). -/
def gossipNeighbors (topology : List (String × List String)) (src : String) :
    List String :=
  (dedupConsecutive (sortList ((topology.map Prod.snd).flatten))).filter
    (fun n => n ≠ src)

/-- One iteration of the gossip thread's loop body (lines 216-251): snapshot
`whoami` and the value set, compute the neighbor list, and emit one
`GossipBroadcast` envelope per neighbor, consuming one `moreids` value each.
Returns the emitted envelopes and the updated `moreids` counter. -/
def gossipRound (store : BroadcastStore) (moreids : Nat) :
    List Message × Nat :=
  let src := store.whoami
  let msgs := store.messages
  let neighbors := gossipNeighbors store.topology src
  (neighbors.enum.map fun p =>
      { src := src, dest := p.2,
        body := { msg_id := some (moreids + p.1), in_reply_to := none,
                  payload := Payload.GossipBroadcast msgs } },
   moreids + neighbors.length)

/-- Whole-node state: dispatcher counter, shared store, and the gossip
thread's local `moreids` counter (line 215). -/
structure NodeState where
  node : EchoNode
  store : BroadcastStore
  moreids : Nat
  deriving DecidableEq

/-- The state `main` starts from: `EchoNode { id: 1 }`,
`BroadcastStore::default()`, `moreids = 1000` (lines 210-215). -/
def initState : NodeState :=
  { node := { id := 1 },
    store := { messages := ∅, whoami := "", topology := [] },
    moreids := 1000 }

/-- One observable event of an execution: either the foreground loop handles
one decoded inbound envelope, or the gossip thread runs one round. -/
inductive Event where
  | request (input : Message) (uid : String)
  | gossip
  deriving DecidableEq

/-- An execution: an arbitrary interleaving of dispatcher steps and gossip
rounds, accumulating every envelope the node emits, in emission order. -/
def runEvents : NodeState → List Event → NodeState × List Message
  | s, [] => (s, [])
  | s, Event.request input uid :: rest =>
      let r := step s.node s.store input uid
      let rr := runEvents { s with node := r.1, store := r.2.1 } rest
      (rr.1, r.2.2 ++ rr.2)
  | s, Event.gossip :: rest =>
      let g := gossipRound s.store s.moreids
      let rr := runEvents { s with moreids := g.2 } rest
      (rr.1, g.1 ++ rr.2)

/-- One inbound line of the foreground loop: either it decodes to a `Message`
(with the `uid` this step's `Ulid::new()` would mint), or decoding fails —
e.g. the line carries an unknown `"type"` tag, which the closed
`#[serde(tag = "type")]` enum rejects. -/
inductive Line where
  | ok (input : Message) (uid : String)
  | bad
  deriving DecidableEq

/-- The foreground loop of `main` (lines 257-264): handle each decoded line
with `step`; a line that fails to decode makes `main` return an error
(`input.context("Message input failed to deserealize")?`), so the loop stops
and the remaining lines are never handled.  The `Bool` records this abnormal
termination. -/
def runMain : NodeState → List Line → NodeState × List Message × Bool
  | s, [] => (s, [], false)
  | s, Line.bad :: _ => (s, [], true)
  | s, Line.ok input uid :: rest =>
      let r := step s.node s.store input uid
      let rr := runMain { s with node := r.1, store := r.2.1 } rest
      (rr.1, r.2.2 ++ rr.2.1, rr.2.2)

/-- `true` iff the envelope is a gossip envelope.  The dispatcher never emits
`GossipBroadcast` and the gossip thread emits nothing else, so this separates
the two emitters' envelopes in an interleaved output. -/
def isGossipMsg (m : Message) : Bool :=
  match m.body.payload with
  | Payload.GossipBroadcast _ => true
  | _ => false

/-- `true` iff the payload is a reply-only kind (or `Error`): the arms of
`step` that fall through to `{}` (lines 194-199). -/
def isReplyOnly : Payload → Bool
  | Payload.InitOk => true
  | Payload.EchoOk _ => true
  | Payload.GenerateOk _ => true
  | Payload.BroadcastOk => true
  | Payload.ReadOk _ => true
  | Payload.TopologyOk => true
  | Payload.Error _ _ => true
  | _ => false

/-- Modelled from the spec (§4.3, step 2): the spec's words for neighbor
selection — "collects the adjacency list for this node's own address,
deduplicates it, and removes this node's own address if present".  Used only
to compare the spec's selection with the source's `gossipNeighbors`. -/
def specNeighbors (topology : List (String × List String)) (src : String) :
    List String :=
  (((lookupKey topology src).getD []).dedup).filter (fun n => n ≠ src)

/-! Concrete envelopes and stores used to instantiate the theorems. -/

/-- A topology request installing `{"a": ["n2"]}`. -/
def topoMsgA : Message :=
  { src := "c1", dest := "n1",
    body := { msg_id := some 1, in_reply_to := none,
              payload := Payload.Topology [("a", ["n2"])] } }

/-- The E2E init request of the spec (§8). -/
def initMsgN1 : Message :=
  { src := "c1", dest := "n1",
    body := { msg_id := some 1, in_reply_to := none,
              payload := Payload.Init "n1" ["n1", "n2"] } }

/-- A plain echo request. -/
def echoMsgHi : Message :=
  { src := "c1", dest := "n1",
    body := { msg_id := some 7, in_reply_to := none,
              payload := Payload.Echo "hi" } }

/-- A broadcast request submitting value `v`. -/
def broadcastMsg (v : Nat) : Message :=
  { src := "c1", dest := "n1",
    body := { msg_id := some v, in_reply_to := none,
              payload := Payload.Broadcast v } }

/-- An inbound gossip envelope carrying the value set `{1}`. -/
def gossipInMsg : Message :=
  { src := "n2", dest := "n1",
    body := { msg_id := none, in_reply_to := none,
              payload := Payload.GossipBroadcast {1} } }

/-- A read request. -/
def readMsg : Message :=
  { src := "c1", dest := "n1",
    body := { msg_id := some 9, in_reply_to := none,
              payload := Payload.Read } }

/-- Inserting 3, 1, 3, 2 (a mix of Broadcast and GossipBroadcast), then
reading back. -/
def seqInsert3132 : List Line :=
  [Line.ok (broadcastMsg 3) "a", Line.ok gossipInMsg "b",
   Line.ok (broadcastMsg 3) "c", Line.ok (broadcastMsg 2) "d",
   Line.ok readMsg "e"]

/-- A store whose topology lists this node's own address `"n1"` inside an
adjacency list. -/
def storeSelfLoop : BroadcastStore :=
  { messages := {4}, whoami := "n1", topology := [("n1", ["n1", "n2"])] }

/-- A store with two topology entries, used for the merge example. -/
def storeMergeEx : BroadcastStore :=
  { messages := ∅, whoami := "n1", topology := [("a", ["b"]), ("z", ["w"])] }

/-- The topology request installing `{"a": ["c"]}` of the spec's P4 example. -/
def topoMsgAC : Message :=
  { src := "c1", dest := "n1",
    body := { msg_id := some 2, in_reply_to := none,
              payload := Payload.Topology [("a", ["c"])] } }

/-- A store already holding value 3, used to instantiate idempotence. -/
def storeWith3 : BroadcastStore :=
  { messages := {3}, whoami := "n1", topology := [] }

/-- The envelopes of `l` carry `msg_id`s exactly `k, k+1, ...` in order. -/
def consecutiveFrom (k : Nat) (l : List Message) : Prop :=
  l.map (fun m => m.body.msg_id) = (List.range' k l.length).map some

/-- `true` iff the envelope's payload is a `ReadOk`. -/
def isReadOk (m : Message) : Bool :=
  match m.body.payload with
  | Payload.ReadOk _ => true
  | _ => false

/-- The value-set snapshot carried by a `ReadOk` payload (else the empty
set). -/
def readOkSet (m : Message) : Finset Nat :=
  match m.body.payload with
  | Payload.ReadOk s => s
  | _ => ∅

/-- An inbound `init_ok` envelope: a reply-only kind arriving as input. -/
def initOkMsg : Message :=
  { src := "n2", dest := "n1",
    body := { msg_id := some 5, in_reply_to := some 1,
              payload := Payload.InitOk } }

/-! Association-list map lemmas. -/

theorem lookupKey_insertKV_self (m : List (String × List String)) (k : String)
    (v : List String) : lookupKey (insertKV m k v) k = some v := by
  induction m with
  | nil => simp [insertKV, lookupKey]
  | cons kv rest ih =>
      obtain ⟨k', v'⟩ := kv
      by_cases hk : k' = k
      · simp [insertKV, hk, lookupKey]
      · simp [insertKV, hk, lookupKey, ih]

theorem lookupKey_insertKV_ne (m : List (String × List String))
    (k k' : String) (v : List String) (h : k ≠ k') :
    lookupKey (insertKV m k v) k' = lookupKey m k' := by
  induction m with
  | nil => simp [insertKV, lookupKey, h]
  | cons kv rest ih =>
      obtain ⟨ka, va⟩ := kv
      by_cases hk : ka = k
      · simp [insertKV, hk, lookupKey, h]
      · simp [insertKV, hk, lookupKey, ih]

theorem lookupKey_extendMap_not_mem (new m : List (String × List String))
    (k : String) (h : ∀ kv ∈ new, kv.1 ≠ k) :
    lookupKey (extendMap m new) k = lookupKey m k := by
  induction new generalizing m with
  | nil => rfl
  | cons kv rest ih =>
      have h1 : extendMap m (kv :: rest) = extendMap (insertKV m kv.1 kv.2) rest := rfl
      rw [h1, ih _ (fun x hx => h x (List.mem_cons_of_mem _ hx))]
      exact lookupKey_insertKV_ne _ _ _ _ (h kv (List.mem_cons_self _ _))

theorem lookupKey_extendMap_mem (new m : List (String × List String))
    (k : String) (v : List String) (hnd : (new.map Prod.fst).Nodup)
    (hmem : (k, v) ∈ new) : lookupKey (extendMap m new) k = some v := by
  induction new generalizing m with
  | nil => cases hmem
  | cons kv rest ih =>
      have h1 : extendMap m (kv :: rest) = extendMap (insertKV m kv.1 kv.2) rest := rfl
      rcases List.mem_cons.mp hmem with heq | hmem'
      · subst heq
        rw [h1, lookupKey_extendMap_not_mem]
        · exact lookupKey_insertKV_self _ _ _
        · intro kv' hkv' heq
          have hmm : kv'.1 ∈ rest.map Prod.fst := List.mem_map_of_mem Prod.fst hkv'
          rw [heq] at hmm
          exact (List.nodup_cons.mp hnd).1 hmm
      · exact h1 ▸ ih (insertKV m kv.1 kv.2) (List.nodup_cons.mp hnd).2 hmem'

/-! Membership lemmas for the gossip neighbor computation. -/

theorem mem_insertSorted (a x : String) (l : List String) :
    x ∈ insertSorted a l ↔ x = a ∨ x ∈ l := by
  induction l with
  | nil => simp [insertSorted]
  | cons b rest ih =>
      by_cases h : strLe a b <;> (simp [insertSorted, h, ih]; try tauto)

theorem mem_sortList (x : String) (l : List String) :
    x ∈ sortList l ↔ x ∈ l := by
  induction l with
  | nil => simp [sortList]
  | cons a rest ih => simp [sortList, mem_insertSorted, ih]

theorem mem_dedupConsecutive (x : String) (l : List String) :
    x ∈ dedupConsecutive l ↔ x ∈ l := by
  induction l with
  | nil => simp [dedupConsecutive]
  | cons a rest ih =>
      cases rest with
      | nil => simp [dedupConsecutive]
      | cons b rest' =>
          by_cases hab : a = b
          · subst hab
            rw [show dedupConsecutive (a :: a :: rest') = dedupConsecutive (a :: rest') by
                  simp [dedupConsecutive]]
            rw [ih]
            simp
          · simp only [dedupConsecutive, if_neg hab]
            simp [ih]

theorem mem_gossipNeighbors (topology : List (String × List String))
    (src n : String) :
    n ∈ gossipNeighbors topology src ↔
      n ≠ src ∧ ∃ kv ∈ topology, n ∈ kv.2 := by
  simp only [gossipNeighbors, List.mem_filter, mem_dedupConsecutive,
    mem_sortList, List.mem_flatten, List.mem_map, decide_eq_true_eq]
  constructor
  · rintro ⟨⟨l, ⟨kv, hkv, rfl⟩, hn⟩, hne⟩
    exact ⟨hne, kv, hkv, hn⟩
  · rintro ⟨hne, kv, hkv, hn⟩
    exact ⟨⟨kv.2, ⟨kv, hkv, rfl⟩, hn⟩, hne⟩

/-! Shape lemmas for a gossip round. -/

theorem gossipRound_dests (store : BroadcastStore) (k : Nat) :
    (gossipRound store k).1.map (fun m => m.dest)
      = gossipNeighbors store.topology store.whoami := by
  simp only [gossipRound, List.map_map]
  have h : ((fun m : Message => m.dest) ∘ fun p : Nat × String =>
      ({ src := store.whoami, dest := p.2,
         body := { msg_id := some (k + p.1), in_reply_to := none,
                   payload := Payload.GossipBroadcast store.messages } } : Message))
      = Prod.snd := rfl
  rw [h, List.enum_map_snd]

theorem gossipRound_length (store : BroadcastStore) (k : Nat) :
    (gossipRound store k).1.length
      = (gossipNeighbors store.topology store.whoami).length := by
  simp [gossipRound]

theorem enum_map_add_fst (k : Nat) (l : List String) :
    l.enum.map (fun p => k + p.1) = List.range' k l.length :=
  calc l.enum.map (fun p => k + p.1)
      = l.enum.map ((fun x => k + x) ∘ Prod.fst) := rfl
    _ = (l.enum.map Prod.fst).map (fun x => k + x) := (List.map_map _ _ _).symm
    _ = (List.range l.length).map (fun x => k + x) := by rw [List.enum_map_fst]
    _ = List.range' k l.length := (List.range'_eq_map_range _ _).symm

theorem enum_map_some_add_fst (k : Nat) (l : List String) :
    l.enum.map (fun p => some (k + p.1)) = (List.range' k l.length).map some :=
  calc l.enum.map (fun p => some (k + p.1))
      = l.enum.map (some ∘ fun p : Nat × String => k + p.1) := rfl
    _ = (l.enum.map (fun p => k + p.1)).map some := (List.map_map _ _ _).symm
    _ = (List.range' k l.length).map some := by rw [enum_map_add_fst]

theorem gossipRound_ids (store : BroadcastStore) (k : Nat) :
    (gossipRound store k).1.map (fun m => m.body.msg_id)
        = (List.range' k (gossipRound store k).1.length).map some
      ∧ (gossipRound store k).2 = k + (gossipRound store k).1.length := by
  constructor
  · rw [gossipRound_length]
    show ((gossipNeighbors store.topology store.whoami).enum.map (fun p =>
        ({ src := store.whoami, dest := p.2,
           body := { msg_id := some (k + p.1), in_reply_to := none,
                     payload := Payload.GossipBroadcast store.messages } } : Message))).map
          (fun m => m.body.msg_id)
      = (List.range' k (gossipNeighbors store.topology store.whoami).length).map some
    rw [List.map_map]
    exact enum_map_some_add_fst k _
  · simp [gossipRound]

theorem gossipRound_gossip (store : BroadcastStore) (k : Nat) :
    ∀ m ∈ (gossipRound store k).1, isGossipMsg m = true := by
  intro m hm
  simp only [gossipRound, List.mem_map] at hm
  obtain ⟨p, _, rfl⟩ := hm
  rfl

theorem gossipRound_no_reply (store : BroadcastStore) (k : Nat) :
    ∀ m ∈ (gossipRound store k).1, m.body.in_reply_to = none := by
  intro m hm
  simp only [gossipRound, List.mem_map] at hm
  obtain ⟨p, _, rfl⟩ := hm
  rfl

theorem gossipRound_store_unchanged (store : BroadcastStore) (k : Nat)
    (m : Message) (hm : m ∈ (gossipRound store k).1) :
    m.src = store.whoami ∧ m.body.payload = Payload.GossipBroadcast store.messages := by
  simp only [gossipRound, List.mem_map] at hm
  obtain ⟨p, _, rfl⟩ := hm
  exact ⟨rfl, rfl⟩

/-! Shape lemmas for a dispatcher step. -/

theorem step_ids (node : EchoNode) (store : BroadcastStore) (input : Message)
    (uid : String) :
    (step node store input uid).2.2.map (fun m => m.body.msg_id)
        = (List.range' node.id (step node store input uid).2.2.length).map some
      ∧ (step node store input uid).1.id
        = node.id + (step node store input uid).2.2.length := by
  obtain ⟨s, d, mid, irt, p⟩ := input
  cases p <;> simp [step]

theorem step_not_gossip (node : EchoNode) (store : BroadcastStore)
    (input : Message) (uid : String) :
    ∀ m ∈ (step node store input uid).2.2, isGossipMsg m = false := by
  obtain ⟨s, d, mid, irt, p⟩ := input
  cases p <;> intro m hm <;> simp [step] at hm <;> subst hm <;> rfl

theorem consecutiveFrom_append (k : Nat) (a b : List Message)
    (ha : consecutiveFrom k a) (hb : consecutiveFrom (k + a.length) b) :
    consecutiveFrom k (a ++ b) := by
  unfold consecutiveFrom at ha hb ⊢
  rw [List.map_append, ha, hb, ← List.map_append, List.length_append]
  congr 1
  have h := List.range'_append k a.length b.length 1
  simp only [one_mul] at h
  rw [h, Nat.add_comm b.length a.length]

theorem runEvents_ids (evs : List Event) (s : NodeState) :
    consecutiveFrom s.node.id
        ((runEvents s evs).2.filter (fun m => !isGossipMsg m))
    ∧ consecutiveFrom s.moreids
        ((runEvents s evs).2.filter (fun m => isGossipMsg m)) := by
  induction evs generalizing s with
  | nil => exact ⟨rfl, rfl⟩
  | cons e rest ih =>
      cases e with
      | request input uid =>
          have hstep := step_ids s.node s.store input uid
          have hng := step_not_gossip s.node s.store input uid
          have hA1 : (step s.node s.store input uid).2.2.filter
                (fun m => !isGossipMsg m) = (step s.node s.store input uid).2.2 :=
            List.filter_eq_self.mpr (fun m hm => by rw [hng m hm]; rfl)
          have hA2 : (step s.node s.store input uid).2.2.filter
                (fun m => isGossipMsg m) = [] :=
            List.filter_eq_nil_iff.mpr (fun m hm => by rw [hng m hm]; simp)
          have hih := ih { s with node := (step s.node s.store input uid).1,
                                  store := (step s.node s.store input uid).2.1 }
          simp only [runEvents]
          rw [List.filter_append, List.filter_append, hA1, hA2, List.nil_append]
          constructor
          · apply consecutiveFrom_append _ _ _ hstep.1
            have h2 : consecutiveFrom ((step s.node s.store input uid).1.id)
                ((runEvents { s with node := (step s.node s.store input uid).1,
                                     store := (step s.node s.store input uid).2.1 }
                    rest).2.filter (fun m => !isGossipMsg m)) := hih.1
            rw [hstep.2] at h2
            exact h2
          · exact hih.2
      | gossip =>
          have hg := gossipRound_ids s.store s.moreids
          have hgg := gossipRound_gossip s.store s.moreids
          have hA1 : (gossipRound s.store s.moreids).1.filter
                (fun m => isGossipMsg m) = (gossipRound s.store s.moreids).1 :=
            List.filter_eq_self.mpr (fun m hm => hgg m hm)
          have hA2 : (gossipRound s.store s.moreids).1.filter
                (fun m => !isGossipMsg m) = [] :=
            List.filter_eq_nil_iff.mpr (fun m hm => by rw [hgg m hm]; simp)
          have hih := ih { s with moreids := (gossipRound s.store s.moreids).2 }
          simp only [runEvents]
          rw [List.filter_append, List.filter_append, hA1, hA2, List.nil_append]
          constructor
          · exact hih.1
          · apply consecutiveFrom_append _ _ _ hg.1
            have h2 : consecutiveFrom ((gossipRound s.store s.moreids).2)
                ((runEvents { s with moreids := (gossipRound s.store s.moreids).2 }
                    rest).2.filter (fun m => isGossipMsg m)) := hih.2
            nth_rewrite 1 [hg.2] at h2
            exact h2

/-- C1 (amended): the node keeps two independent msg-id counters.  In every
execution the dispatcher's replies carry msg_ids 1, 2, ... consecutively
(counter starting at 1, +1 per reply), and the gossip envelopes carry msg_ids
1000, 1001, ... consecutively (the gossip thread's own counter starting at
1000, +1 per gossip envelope); the counters are not shared. -/
theorem c1_two_counters (evs : List Event) :
    consecutiveFrom 1
        ((runEvents initState evs).2.filter (fun m => !isGossipMsg m))
    ∧ consecutiveFrom 1000
        ((runEvents initState evs).2.filter (fun m => isGossipMsg m)) :=
  runEvents_ids evs initState

/-- C1 counterexample: an execution emitting K = 2 envelopes (one topology
reply, one gossip envelope) whose msg_ids are 1 and 1000 — not 1..2, so the
emitted ids are not drawn from one shared counter starting at 1. -/
theorem c1_counterexample :
    (runEvents initState [Event.request topoMsgA "u", Event.gossip]).2.map
        (fun m => m.body.msg_id) = [some 1, some 1000]
    ∧ (runEvents initState [Event.request topoMsgA "u", Event.gossip]).2.length = 2
    ∧ [some 1, some 1000] ≠ [some (1 : Nat), some 2] :=
  ⟨rfl, rfl, by decide⟩

/-- C2 (amended): handling Init appends the inbound envelope's `dest` field
(not the payload's `node_id`, which is ignored) to the Identity string.  The
first Init thus sets the Identity to the envelope's dest, but the Identity is
not immutable: any later Init appends to it again. -/
theorem c2_init_appends_dest (node : EchoNode) (store : BroadcastStore)
    (input : Message) (uid : String) (node_id : String)
    (node_ids : List String)
    (h : input.body.payload = Payload.Init node_id node_ids) :
    (step node store input uid).2.1.whoami = store.whoami ++ input.dest := by
  obtain ⟨s, d, mid, irt, p⟩ := input
  have h' : p = Payload.Init node_id node_ids := h
  subst h'
  rfl

/-- C2 witness: the amended theorem at a concrete Init request. -/
theorem c2_witness :
    (step ⟨1⟩ storeWith3 initMsgN1 "u").2.1.whoami
      = storeWith3.whoami ++ initMsgN1.dest :=
  c2_init_appends_dest ⟨1⟩ storeWith3 initMsgN1 "u" "n1" ["n1", "n2"] rfl

/-- C2 counterexample: handling the same Init(node_id = "n1") twice leaves the
Identity equal to "n1n1", so a second Init does change it. -/
theorem c2_counterexample :
    (runMain initState
        [Line.ok initMsgN1 "u", Line.ok initMsgN1 "u"]).1.store.whoami = "n1n1"
    ∧ ("n1n1" : String) ≠ "n1" :=
  ⟨rfl, by decide⟩

/-- C3 (amended): the destinations of a gossip round are exactly the union of
ALL adjacency lists stored in the Topology (every key's list, not only this
node's own), deduplicated, minus this node's own address. -/
theorem c3_gossip_uses_all_adjacency (store : BroadcastStore) (k : Nat)
    (n : String) :
    n ∈ (gossipRound store k).1.map (fun m => m.dest) ↔
      n ≠ store.whoami ∧ ∃ kv ∈ store.topology, n ∈ kv.2 := by
  rw [gossipRound_dests]
  exact mem_gossipNeighbors _ _ _

/-- C3 witness: the amended characterization at a concrete store. -/
theorem c3_witness :
    "n2" ∈ (gossipRound storeSelfLoop 1000).1.map (fun m => m.dest) :=
  (c3_gossip_uses_all_adjacency storeSelfLoop 1000 "n2").mpr
    ⟨by decide, by decide⟩

/-- C3 counterexample: with topology {"n2": ["n3"]} and own address "n1", the
store holds no adjacency list for "n1" (so the claim's selection is empty),
yet the code gossips to "n3", taken from another node's adjacency list. -/
theorem c3_counterexample :
    gossipNeighbors [("n2", ["n3"])] "n1" = ["n3"]
    ∧ specNeighbors [("n2", ["n3"])] "n1" = []
    ∧ lookupKey [("n2", ["n3"])] "n1" = none :=
  ⟨rfl, rfl, rfl⟩

/-- C4 (amended): an inbound reply-only kind (InitOk, EchoOk, GenerateOk,
BroadcastOk, ReadOk, TopologyOk, or Error) is a no-op: no reply, no state
change, and the loop continues.  An unknown/unsupported `type` value, by
contrast, fails deserialization and is fatal (see the counterexample). -/
theorem c4_reply_only_noop (node : EchoNode) (store : BroadcastStore)
    (input : Message) (uid : String)
    (h : isReplyOnly input.body.payload = true) :
    step node store input uid = (node, store, []) := by
  obtain ⟨s, d, mid, irt, p⟩ := input
  cases p <;> first | rfl | simp [isReplyOnly] at h

/-- C4 witness: the amended theorem at a concrete inbound `init_ok`. -/
theorem c4_witness :
    step ⟨1⟩ storeWith3 initOkMsg "u" = (⟨1⟩, storeWith3, []) :=
  c4_reply_only_noop ⟨1⟩ storeWith3 initOkMsg "u" rfl

/-- C4 counterexample: a line with an unknown `type` fails to decode, and the
process terminates instead of continuing — the echo request behind it is
never handled (alone, it would produce a reply). -/
theorem c4_counterexample :
    runMain initState [Line.bad, Line.ok echoMsgHi "u"] = (initState, [], true)
    ∧ (runMain initState [Line.ok echoMsgHi "u"]).2.1 ≠ [] :=
  ⟨rfl, by decide⟩

/-- C5: Topology(topology) maps each supplied key to exactly its supplied
list (overwriting previous entries), keeps every other key's previous value,
and emits a TopologyOk reply. -/
theorem c5_topology_merge (node : EchoNode) (store : BroadcastStore)
    (input : Message) (uid : String) (topo : List (String × List String))
    (h : input.body.payload = Payload.Topology topo)
    (hnd : (topo.map Prod.fst).Nodup) :
    (∀ kv ∈ topo,
        lookupKey (step node store input uid).2.1.topology kv.1 = some kv.2)
    ∧ (∀ k, (∀ kv ∈ topo, kv.1 ≠ k) →
        lookupKey (step node store input uid).2.1.topology k
          = lookupKey store.topology k)
    ∧ (step node store input uid).2.2 =
        [{ src := input.dest, dest := input.src,
           body := { msg_id := some node.id, in_reply_to := input.body.msg_id,
                     payload := Payload.TopologyOk } }] := by
  obtain ⟨s, d, mid, irt, p⟩ := input
  have h' : p = Payload.Topology topo := h
  subst h'
  refine ⟨?_, ?_, rfl⟩
  · intro kv hkv
    exact lookupKey_extendMap_mem topo store.topology kv.1 kv.2 hnd hkv
  · intro k hk
    exact lookupKey_extendMap_not_mem topo store.topology k hk

/-- C5 witness: the spec's P4 example — after Topology({"a": ["b"]}) (already
in `storeMergeEx`) then Topology({"a": ["c"]}), key "a" maps to ["c"] and the
unrelated key "z" is preserved. -/
theorem c5_witness :
    lookupKey (step ⟨2⟩ storeMergeEx topoMsgAC "u").2.1.topology "a"
        = some ["c"]
    ∧ lookupKey (step ⟨2⟩ storeMergeEx topoMsgAC "u").2.1.topology "z"
        = lookupKey storeMergeEx.topology "z" :=
  ⟨(c5_topology_merge ⟨2⟩ storeMergeEx topoMsgAC "u" [("a", ["c"])] rfl
      (by decide)).1 ("a", ["c"]) (by decide),
   (c5_topology_merge ⟨2⟩ storeMergeEx topoMsgAC "u" [("a", ["c"])] rfl
      (by decide)).2.1 "z" (by decide)⟩

/-- C6: value insertion is idempotent — Broadcast of a present value leaves
the Value Set unchanged and still acknowledges with BroadcastOk; a
GossipBroadcast whose set is already contained leaves it unchanged; and
inserting 3, 1, 3, 2 (mix of Broadcast and GossipBroadcast) yields the Value
Set {1,2,3}, which Read returns. -/
theorem c6_insert_idempotent :
    (∀ (node : EchoNode) (store : BroadcastStore) (input : Message)
        (uid : String) (v : Nat), v ∈ store.messages →
        input.body.payload = Payload.Broadcast v →
        (step node store input uid).2.1.messages = store.messages
        ∧ (step node store input uid).2.2 =
            [{ src := input.dest, dest := input.src,
               body := { msg_id := some node.id,
                         in_reply_to := input.body.msg_id,
                         payload := Payload.BroadcastOk } }])
    ∧ (∀ (node : EchoNode) (store : BroadcastStore) (input : Message)
        (uid : String) (g : Finset Nat), g ⊆ store.messages →
        input.body.payload = Payload.GossipBroadcast g →
        (step node store input uid).2.1.messages = store.messages)
    ∧ (runMain initState seqInsert3132).1.store.messages = {1, 2, 3}
    ∧ ((runMain initState seqInsert3132).2.1.map
          (fun m => (m.body.msg_id, m.body.in_reply_to, isReadOk m))).getLast?
        = some (some 4, some 9, true)
    ∧ ((runMain initState seqInsert3132).2.1.getLast?.map readOkSet).getD ∅
        = {1, 2, 3} := by
  refine ⟨?_, ?_, by decide, by decide, by decide⟩
  · intro node store input uid v hv h
    obtain ⟨s, d, mid, irt, p⟩ := input
    have h' : p = Payload.Broadcast v := h
    subst h'
    exact ⟨by simp [step, Finset.insert_eq_self.mpr hv], rfl⟩
  · intro node store input uid g hg h
    obtain ⟨s, d, mid, irt, p⟩ := input
    have h' : p = Payload.GossipBroadcast g := h
    subst h'
    simp [step, Finset.union_eq_left.mpr hg]

/-- C6 witness: broadcasting the already-present value 3 leaves the set
unchanged. -/
theorem c6_witness :
    (step ⟨1⟩ storeWith3 (broadcastMsg 3) "u").2.1.messages
      = storeWith3.messages :=
  (c6_insert_idempotent.1 ⟨1⟩ storeWith3 (broadcastMsg 3) "u" 3 (by decide)
      rfl).1

/-- C7: the Value Set grows monotonically — handling any message leaves the
Value Set a superset of what it was; no payload kind removes values. -/
theorem c7_value_set_monotone (node : EchoNode) (store : BroadcastStore)
    (input : Message) (uid : String) :
    store.messages ⊆ (step node store input uid).2.1.messages := by
  obtain ⟨s, d, mid, irt, p⟩ := input
  cases p <;> simp [step, Finset.subset_insert]

/-- C7 witness: the monotonicity theorem at a concrete input. -/
theorem c7_witness :
    storeWith3.messages ⊆ (step ⟨1⟩ storeWith3 (broadcastMsg 2) "u").2.1.messages :=
  c7_value_set_monotone ⟨1⟩ storeWith3 (broadcastMsg 2) "u"

/-- C8: no gossip envelope is ever addressed to this node's own address, for
every state of the topology store — including stores whose adjacency lists
contain the node's own address. -/
theorem c8_no_self_loop (store : BroadcastStore) (k : Nat) (m : Message)
    (hm : m ∈ (gossipRound store k).1) : m.dest ≠ store.whoami := by
  have hd : m.dest ∈ (gossipRound store k).1.map (fun m => m.dest) :=
    List.mem_map_of_mem _ hm
  rw [gossipRound_dests] at hd
  exact ((mem_gossipNeighbors _ _ _).mp hd).1

/-- C8 witness: with own address "n1" listed in its own adjacency list, the
round's (single) envelope goes to "n2", not to "n1". -/
theorem c8_witness :
    ({ src := "n1", dest := "n2",
       body := { msg_id := some 1000, in_reply_to := none,
                 payload := Payload.GossipBroadcast {4} } } : Message).dest
      ≠ storeSelfLoop.whoami :=
  c8_no_self_loop storeSelfLoop 1000 _ (by decide)

/-- C9: every dispatcher reply's in_reply_to equals the request's msg_id
(hence absent when the request carried none), and gossip envelopes carry no
in_reply_to. -/
theorem c9_reply_correlation :
    (∀ (node : EchoNode) (store : BroadcastStore) (input : Message)
        (uid : String), ∀ m ∈ (step node store input uid).2.2,
        m.body.in_reply_to = input.body.msg_id)
    ∧ (∀ (store : BroadcastStore) (k : Nat),
        ∀ m ∈ (gossipRound store k).1, m.body.in_reply_to = none) := by
  constructor
  · intro node store input uid m hm
    obtain ⟨s, d, mid, irt, p⟩ := input
    cases p <;> simp [step] at hm <;> subst hm <;> rfl
  · exact gossipRound_no_reply

/-- C9 witness: the echo reply to a request with msg_id 7 carries
in_reply_to 7. -/
theorem c9_witness :
    ({ src := "n1", dest := "c1",
       body := { msg_id := some 1, in_reply_to := some 7,
                 payload := Payload.EchoOk "hi" } } : Message).body.in_reply_to
      = echoMsgHi.body.msg_id :=
  c9_reply_correlation.1 ⟨1⟩ storeWith3 echoMsgHi "u" _ (by decide)

/-- C10: reply addressing swaps the request's addressing — the reply's src is
the request's dest and the reply's dest is the request's src. -/
theorem c10_reply_addressing (node : EchoNode) (store : BroadcastStore)
    (input : Message) (uid : String) (m : Message)
    (h : m ∈ (step node store input uid).2.2) :
    m.src = input.dest ∧ m.dest = input.src := by
  obtain ⟨s, d, mid, irt, p⟩ := input
  cases p <;> simp [step] at h <;> subst h <;> exact ⟨rfl, rfl⟩

/-- C10 witness: the echo reply swaps src and dest of the request. -/
theorem c10_witness :
    ({ src := "n1", dest := "c1",
       body := { msg_id := some 1, in_reply_to := some 7,
                 payload := Payload.EchoOk "hi" } } : Message).src
        = echoMsgHi.dest
    ∧ ({ src := "n1", dest := "c1",
         body := { msg_id := some 1, in_reply_to := some 7,
                   payload := Payload.EchoOk "hi" } } : Message).dest
        = echoMsgHi.src :=
  c10_reply_addressing ⟨1⟩ storeWith3 echoMsgHi "u" _ (by decide)
